import Mathlib

/-!
Shallow embedding of the SMC user-space client (`src/smc.c`) from
ralphwetzel/libsmc.

The C file talks to the Apple SMC through a single opaque call primitive
(`call_smc`, wrapping `IOConnectCallStructMethod`).  We model that
primitive as an oracle `Transport : SMCParamStruct → Nat × SMCParamStruct`
mapping the request frame to the pair (channel status, response frame);
the channel status is the value `call_smc` returns after its
`err_get_code` normalisation.  The transaction functions additionally
return the list of request frames they passed to the transport, so that
call-count properties can be stated.

Machine integers are modelled as `Nat` with explicit `% 2^w` truncation
where the C code can overflow; byte arrays are `List Nat` of byte values;
C `double` arithmetic is modelled as exact rational arithmetic.

The header `smc.h` is not part of the sources; the structure layouts and
the protocol constants it defines are modelled from the spec (wire frame
of §6: encoded key, operation selector, key-info sub-record, result byte,
32-byte payload buffer; result-code taxonomy of §6/§7).
-/

/-- Modelled from the spec: operation selector for the metadata
("get key info") phase; the numeric value is private to the missing
header `smc.h` and only its distinctness from the other selectors
matters. -/
def kSMCGetKeyInfo : Nat := 9

/-- Modelled from the spec: operation selector for the read (data) phase. -/
def kSMCReadKey : Nat := 5

/-- Modelled from the spec: operation selector for the write (data) phase. -/
def kSMCWriteKey : Nat := 6

/-- Modelled from the spec: the controller's protocol-level success status. -/
def kSMCSuccess : Nat := 0

/-- Modelled from the spec: the channel-level success code (IOKit
`kIOReturnSuccess`, which is 0). -/
def kIOReturnSuccess : Nat := 0

/-- Modelled from the spec: the distinct "bad argument" channel-level code
(IOKit `kIOReturnBadArgument`), used by `write_smc` for the size-mismatch
precondition failure. -/
def kIOReturnBadArgument : Nat := 0xE00002C2

/-- Modelled from the spec: an SMC key is exactly 4 characters
(`SMC_KEY_SIZE` in the missing header). -/
def SMC_KEY_SIZE : Nat := 4

/-- Modelled from the spec: a data-type tag is 4 characters
(`DATA_TYPE_SIZE` in the missing header). -/
def DATA_TYPE_SIZE : Nat := 4

/-- Modelled from the spec: the 4-character tag of the signed
fixed-point temperature type, the characters of "sp78". -/
def DATA_TYPE_SP78 : List Nat := [115, 112, 55, 56]

/-- Modelled from the spec: the 4-character tag of the fan fixed-point
type, the characters of "fpe2". -/
def DATA_TYPE_FPE2 : List Nat := [102, 112, 101, 50]

/-- Modelled from the spec: the 4-character tag of the unsigned-byte
type, the characters of "ui8 ". -/
def DATA_TYPE_UINT8 : List Nat := [117, 105, 56, 32]

/-- Modelled from the spec: the key-info sub-record of the wire frame,
holding the controller-reported value size and 32-bit type tag. -/
structure SMCKeyInfoData where
  dataSize : Nat
  dataType : Nat
deriving Repr, DecidableEq

/-- Modelled from the spec: the fixed-size wire frame exchanged with the
controller (both request and response), restricted to the fields
`smc.c` reads or writes: the encoded key, the 8-bit operation selector
`data8`, the key-info sub-record, the protocol status byte `result`,
and the 32-byte payload buffer. -/
structure SMCParamStruct where
  key : Nat
  data8 : Nat
  keyInfo : SMCKeyInfoData
  result : Nat
  bytes : List Nat
deriving Repr, DecidableEq

/-- The all-zero wire frame, as produced by `memset(..., 0, ...)`. -/
def zeroParam : SMCParamStruct :=
  { key := 0, data8 := 0, keyInfo := { dataSize := 0, dataType := 0 },
    result := 0, bytes := List.replicate 32 0 }

/-- Modelled from the spec: the `smc_return_t` record of the missing
header — a 32-byte payload, the decoded 4-character data type, the data
size, and the controller's protocol status (`kSMC`). -/
structure smc_return_t where
  data : List Nat
  dataType : List Nat
  dataSize : Nat
  kSMC : Nat
deriving Repr, DecidableEq

/-- The all-zero `smc_return_t`, as produced by `memset(..., 0, ...)`. -/
def zeroReturn : smc_return_t :=
  { data := List.replicate 32 0, dataType := List.replicate 4 0,
    dataSize := 0, kSMC := 0 }

/-- The transport oracle standing for `call_smc`: one request frame in,
the channel status and one response frame out. -/
abbrev Transport := SMCParamStruct → Nat × SMCParamStruct

/-- Embedding of `from_fpe2` (smc.c lines 61-72): `ans += data[0] << 6;
ans += data[1] << 2;` over the 32-byte array, accumulating in an
unsigned int (no overflow is possible for byte inputs). -/
def from_fpe2 (data : List Nat) : Nat :=
  data.getD 0 0 <<< 6 + data.getD 1 0 <<< 2

/-- Embedding of `to_fpe2` (smc.c lines 81-85): `data[0] = val >> 6;
data[1] = (val << 2) ^ (data[0] << 8);` where `val` is an unsigned int
(shifts mod 2^32) and the stores truncate to `uint8_t` (mod 256);
the `data[0]` read back in the XOR is the already-truncated byte. -/
def to_fpe2 (val : Nat) (data : List Nat) : List Nat :=
  ((data.set 0 ((val >>> 6) % 256)).set 1
    ((((val <<< 2) % 2 ^ 32) ^^^ (((val >>> 6) % 256) <<< 8)) % 256))

/-- Embedding of `to_uint32_t` (smc.c lines 95-111): returns 0 for a key
whose length is not `SMC_KEY_SIZE`, otherwise big-endian packs the four
character codes into a `uint32_t` accumulator (mod 2^32). -/
def to_uint32_t (key : List Nat) : Nat :=
  if key.length ≠ SMC_KEY_SIZE then 0
  else (key.getD 0 0 <<< 24 + key.getD 1 0 <<< 16 +
        key.getD 2 0 <<< 8 + key.getD 3 0) % 2 ^ 32

/-- Embedding of `to_string` (smc.c lines 118-128): splits a 32-bit type
tag into its 4 characters, `dataType[i] = (val >> shift) & 0xff` with
shift running 24, 16, 8, 0. -/
def to_string (val : Nat) : List Nat :=
  [(val >>> 24) &&& 0xff, (val >>> 16) &&& 0xff,
   (val >>> 8) &&& 0xff, (val >>> 0) &&& 0xff]

/-- Embedding of `to_fahrenheit` (smc.c lines 139-143), with C doubles
modelled as exact rationals. -/
def to_fahrenheit (tmp : Rat) : Rat :=
  (tmp * 1.8) + 32

/-- Embedding of `to_kelvin` (smc.c lines 149-153), with C doubles
modelled as exact rationals. -/
def to_kelvin (tmp : Rat) : Rat :=
  tmp + 273.15

/-- Result of a transaction function: the returned `kern_return_t`, the
filled `smc_return_t`, and the sequence of request frames passed to
`call_smc` (for call-count properties). -/
structure EngineResult where
  kern : Nat
  ret : smc_return_t
  calls : List SMCParamStruct
deriving Repr, DecidableEq

/-- The phase-1 ("get key info") request frame built by both `read_smc`
and `write_smc`: a zeroed frame with the encoded key and the
`kSMCGetKeyInfo` selector. -/
def infoInput (key : List Nat) : SMCParamStruct :=
  { zeroParam with key := to_uint32_t key, data8 := kSMCGetKeyInfo }

/-- The phase-2 request frame of `read_smc`: the phase-1 frame with the
selector switched to `kSMCReadKey` and the controller-reported
`dataSize` echoed back. -/
def readInput2 (T : Transport) (key : List Nat) : SMCParamStruct :=
  { infoInput key with
      data8 := kSMCReadKey,
      keyInfo := { (infoInput key).keyInfo with
                     dataSize := ((T (infoInput key)).2).keyInfo.dataSize } }

/-- Embedding of `read_smc` (smc.c lines 196-235).  The output record is
zeroed first; phase 1 queries key info and aborts (returning the channel
status, with `kSMC` holding the response's protocol status) if the
channel status or the protocol status is not success; otherwise
`dataSize` and the decoded `dataType` are stored, phase 2 reads the data
with the same failure check, and on success the 32 response payload
bytes are copied out. -/
def read_smc (T : Transport) (key : List Nat) : EngineResult :=
  if (T (infoInput key)).1 ≠ kIOReturnSuccess ∨
     ((T (infoInput key)).2).result ≠ kSMCSuccess then
    { kern := (T (infoInput key)).1,
      ret := { zeroReturn with kSMC := ((T (infoInput key)).2).result },
      calls := [infoInput key] }
  else if (T (readInput2 T key)).1 ≠ kIOReturnSuccess ∨
          ((T (readInput2 T key)).2).result ≠ kSMCSuccess then
    { kern := (T (readInput2 T key)).1,
      ret := { zeroReturn with
                 kSMC := ((T (readInput2 T key)).2).result,
                 dataSize := ((T (infoInput key)).2).keyInfo.dataSize,
                 dataType := to_string ((T (infoInput key)).2).keyInfo.dataType },
      calls := [infoInput key, readInput2 T key] }
  else
    { kern := (T (readInput2 T key)).1,
      ret := { data := ((T (readInput2 T key)).2).bytes,
               dataType := to_string ((T (infoInput key)).2).keyInfo.dataType,
               dataSize := ((T (infoInput key)).2).keyInfo.dataSize,
               kSMC := ((T (readInput2 T key)).2).result },
      calls := [infoInput key, readInput2 T key] }

/-- The phase-2 request frame of `write_smc`: the phase-1 frame with the
selector switched to `kSMCWriteKey` and the controller-reported
`dataSize` echoed back.  Note that smc.c line 274 copies the payload
into the *output* struct, so the request frame's payload buffer stays
zeroed — modelled faithfully. -/
def writeInput2 (T : Transport) (key : List Nat) : SMCParamStruct :=
  { infoInput key with
      data8 := kSMCWriteKey,
      keyInfo := { (infoInput key).keyInfo with
                     dataSize := ((T (infoInput key)).2).keyInfo.dataSize } }

/-- Embedding of `write_smc` (smc.c lines 243-280).  Phase 1 queries key
info with the same abort condition as `read_smc`; then the
caller-supplied `dataSize` must equal the controller-reported one, a
mismatch returning `kIOReturnBadArgument` without a second call; phase 2
issues the write and the function returns its channel status, `kSMC`
holding the last response's protocol status. -/
def write_smc (T : Transport) (key : List Nat) (result_smc : smc_return_t) :
    EngineResult :=
  if (T (infoInput key)).1 ≠ kIOReturnSuccess ∨
     ((T (infoInput key)).2).result ≠ kSMCSuccess then
    { kern := (T (infoInput key)).1,
      ret := { result_smc with kSMC := ((T (infoInput key)).2).result },
      calls := [infoInput key] }
  else if result_smc.dataSize ≠ ((T (infoInput key)).2).keyInfo.dataSize then
    { kern := kIOReturnBadArgument,
      ret := { result_smc with kSMC := ((T (infoInput key)).2).result },
      calls := [infoInput key] }
  else
    { kern := (T (writeInput2 T key)).1,
      ret := { result_smc with kSMC := ((T (writeInput2 T key)).2).result },
      calls := [infoInput key, writeInput2 T key] }

/-- Result of `is_key_valid`: the boolean answer, whether the
malformed-length usage error was signalled (the `printf` on smc.c line
339), and the request frames issued. -/
structure KeyValidResult where
  ans : Bool
  usageError : Bool
  calls : List SMCParamStruct
deriving Repr, DecidableEq

/-- Embedding of `is_key_valid` (smc.c lines 332-351): a key whose
length is not 4 signals the usage error and returns false without any
transport call; otherwise a read is attempted and the answer is true
exactly when the returned code and the protocol status are both
success. -/
def is_key_valid (T : Transport) (key : List Nat) : KeyValidResult :=
  if key.length ≠ SMC_KEY_SIZE then
    { ans := false, usageError := true, calls := [] }
  else
    { ans := decide ((read_smc T key).kern = kIOReturnSuccess ∧
                     (read_smc T key).ret.kSMC = kSMCSuccess),
      usageError := false,
      calls := (read_smc T key).calls }

/-- Embedding of the `tmp_unit_t` unit selector. -/
inductive tmp_unit_t where
  | CELSIUS
  | FAHRENHEIT
  | KELVIN
deriving Repr, DecidableEq

/-- Embedding of `get_tmp` (smc.c lines 362-391): reads the key and
returns 0.0 unless the returned code is success, `dataSize` is 2 and
`dataType` is the sp78 tag; otherwise the first payload byte is taken as
whole degrees Celsius and converted per the requested unit. -/
def get_tmp (T : Transport) (key : List Nat) (unit : tmp_unit_t) : Rat :=
  if ¬((read_smc T key).kern = kIOReturnSuccess ∧
       (read_smc T key).ret.dataSize = 2 ∧
       (read_smc T key).ret.dataType = DATA_TYPE_SP78) then 0
  else
    match unit with
    | tmp_unit_t.CELSIUS => ((read_smc T key).ret.data.getD 0 0 : Rat)
    | tmp_unit_t.FAHRENHEIT => to_fahrenheit ((read_smc T key).ret.data.getD 0 0 : Rat)
    | tmp_unit_t.KELVIN => to_kelvin ((read_smc T key).ret.data.getD 0 0 : Rat)

/-- The characters of the literal key "FNum". -/
def keyFNum : List Nat := [70, 78, 117, 109]

/-- Embedding of `get_num_fans` (smc.c lines 404-419): reads "FNum" and
returns the first payload byte, or -1 unless the returned code is
success, `dataSize` is 1 and `dataType` is the unsigned-byte tag. -/
def get_num_fans (T : Transport) : Int :=
  if ¬((read_smc T keyFNum).kern = kIOReturnSuccess ∧
       (read_smc T keyFNum).ret.dataSize = 1 ∧
       (read_smc T keyFNum).ret.dataType = DATA_TYPE_UINT8) then -1
  else ((read_smc T keyFNum).ret.data.getD 0 0 : Int)

/-- The characters of the literal key "F0Ac". -/
def keyF0Ac : List Nat := [70, 48, 65, 99]

/-- The characters of the literal key "F0Mn". -/
def keyF0Mn : List Nat := [70, 48, 77, 110]

/-- Embedding of `get_fan_rpm` (smc.c lines 429-445): reads the literal
key "F0Ac" (the `fan_num` argument is not used — `FIXME` in the source)
and returns the fpe2 decoding of the payload, or 0 unless the returned
code is success, `dataSize` is 2 and `dataType` is the fpe2 tag. -/
def get_fan_rpm (T : Transport) (fan_num : Nat) : Nat :=
  if ¬((read_smc T keyF0Ac).kern = kIOReturnSuccess ∧
       (read_smc T keyF0Ac).ret.dataSize = 2 ∧
       (read_smc T keyF0Ac).ret.dataType = DATA_TYPE_FPE2) then 0
  else from_fpe2 (read_smc T keyF0Ac).ret.data

/-- Embedding of `set_fan_min_rpm` (smc.c lines 459-481): builds a
zeroed `smc_return_t` with `dataSize = 2` and the fpe2-encoded rpm in
the payload, writes it to the literal key "F0Mn" (the `fan_num` argument
is not used — `FIXME` in the source; the `auth` argument is accepted but
unused), and returns true exactly when the returned code and the
protocol status are both success. -/
def set_fan_min_rpm (T : Transport) (fan_num rpm : Nat) (auth : Bool) : Bool :=
  decide ((write_smc T keyF0Mn
             { zeroReturn with dataSize := 2,
                               data := to_fpe2 rpm (List.replicate 32 0) }).kern
            = kIOReturnSuccess ∧
          (write_smc T keyF0Mn
             { zeroReturn with dataSize := 2,
                               data := to_fpe2 rpm (List.replicate 32 0) }).ret.kSMC
            = kSMCSuccess)

/-- The simplified fpe2 encoder in the spec's words (§4.2/§9): same
`data[0]`, and `data[1] = value << 2` truncated to 8 bits, without the
XOR term.  Used to compare with the source's `to_fpe2`. -/
def to_fpe2_simplified (val : Nat) (data : List Nat) : List Nat :=
  ((data.set 0 ((val >>> 6) % 256)).set 1 (((val <<< 2) % 2 ^ 32) % 256))

/-- The characters of the literal key "TC0D" (CPU die temperature),
used to instantiate theorems at a concrete key. -/
def keyTC0D : List Nat := [84, 67, 48, 68]

/-- A concrete transport oracle whose channel always fails, used to
instantiate the theorems at computable inputs. -/
def failT : Transport := fun _ => (1, zeroParam)

/-- A configurable concrete transport oracle used to instantiate the
theorems at computable inputs: metadata requests succeed and report the
given `dataSize` and 32-bit type tag; every other request is answered
with channel status `r2`, protocol status `st2` and the given payload
bytes. -/
def testT (size ty r2 st2 : Nat) (bytes : List Nat) : Transport :=
  fun inp =>
    if inp.data8 = kSMCGetKeyInfo then
      (kIOReturnSuccess,
       { zeroParam with keyInfo := { dataSize := size, dataType := ty } })
    else (r2, { zeroParam with result := st2, bytes := bytes })

/-- Helper: masking with 255 is reduction mod 256. -/
theorem and_255_eq_mod (x : Nat) : x &&& 255 = x % 256 := by
  have h := Nat.and_pow_two_sub_one_eq_mod x 8
  norm_num at h
  exact h

/-- Helper: a term shifted left by 8 bits cannot change the low byte of
an XOR. -/
theorem xor_shiftLeft8_mod256 (a b : Nat) : (a ^^^ b <<< 8) % 256 = a % 256 := by
  rw [← and_255_eq_mod (a ^^^ b <<< 8), ← and_255_eq_mod a, Nat.and_xor_distrib_right]
  have hb : b <<< 8 &&& 255 = 0 := by
    rw [and_255_eq_mod, Nat.shiftLeft_eq]
    norm_num [Nat.mul_mod_left]
  rw [hb, Nat.xor_zero]

/-- C1 (counterexample): v = 4 is a multiple of 4 in [0, 16383], yet
decoding the fpe2 encoding of 4 yields 64, not 4 — `from_fpe2` shifts
`data[1]` left by 2 instead of right, so the round trip is not the
claimed truncation to a multiple of 4. -/
theorem fpe2_roundtrip_counterexample :
    4 % 4 = 0 ∧ 4 ≤ 16383 ∧
    from_fpe2 (to_fpe2 4 (List.replicate 32 0)) = 64 ∧
    from_fpe2 (to_fpe2 4 (List.replicate 32 0)) ≠ 4 := by
  decide

/-- C1 (amended): for every v in [0, 16383], decoding the fpe2 encoding
of v yields v + 15 * (v mod 64); in particular the round trip reproduces
v exactly when v is a multiple of 64. -/
theorem fpe2_roundtrip_amended (v : Nat) (h : v ≤ 16383) :
    from_fpe2 (to_fpe2 v (List.replicate 32 0)) = v + 15 * (v % 64) := by
  have hrep : (List.replicate 32 0 : List Nat) = 0 :: 0 :: List.replicate 30 0 := rfl
  simp only [to_fpe2, from_fpe2, hrep, List.set_cons_zero, List.set_cons_succ,
    List.getD_cons_zero, List.getD_cons_succ]
  rw [xor_shiftLeft8_mod256]
  simp only [Nat.shiftLeft_eq, Nat.shiftRight_eq_div_pow]
  omega

/-- C1 (witness): the amended round trip evaluated at v = 100. -/
theorem fpe2_roundtrip_amended_witness :
    100 ≤ 16383 ∧
    from_fpe2 (to_fpe2 100 (List.replicate 32 0)) = 100 + 15 * (100 % 64) :=
  ⟨by decide, fpe2_roundtrip_amended 100 (by decide)⟩

/-- C2: whenever the metadata (get-key-info) phase fails — its channel
status is non-success or its response's protocol status is non-success —
both `read_smc` and `write_smc` pass exactly one request to the
transport and return: the data-phase call is never issued. -/
theorem metadata_failure_single_call (T : Transport) (key : List Nat)
    (v : smc_return_t)
    (h : (T (infoInput key)).1 ≠ kIOReturnSuccess ∨
         ((T (infoInput key)).2).result ≠ kSMCSuccess) :
    (read_smc T key).calls.length = 1 ∧ (write_smc T key v).calls.length = 1 := by
  simp only [read_smc, write_smc, if_pos h]
  simp

/-- C2 (witness): the single-call property evaluated at a transport
whose channel always fails. -/
theorem metadata_failure_single_call_witness :
    ((failT (infoInput keyF0Ac)).1 ≠ kIOReturnSuccess ∨
     ((failT (infoInput keyF0Ac)).2).result ≠ kSMCSuccess) ∧
    (read_smc failT keyF0Ac).calls.length = 1 ∧
    (write_smc failT keyF0Ac zeroReturn).calls.length = 1 :=
  ⟨by decide, metadata_failure_single_call failT keyF0Ac zeroReturn (by decide)⟩

/-- C3: when the metadata phase succeeds but the caller-supplied
`dataSize` differs from the controller-reported one, `write_smc` returns
`kIOReturnBadArgument` and makes exactly one transport call in total —
the payload-phase call is never issued. -/
theorem write_smc_size_mismatch_bad_argument (T : Transport) (key : List Nat)
    (v : smc_return_t)
    (h1 : (T (infoInput key)).1 = kIOReturnSuccess)
    (h2 : ((T (infoInput key)).2).result = kSMCSuccess)
    (h3 : v.dataSize ≠ ((T (infoInput key)).2).keyInfo.dataSize) :
    (write_smc T key v).kern = kIOReturnBadArgument ∧
    (write_smc T key v).calls.length = 1 := by
  have hno : ¬((T (infoInput key)).1 ≠ kIOReturnSuccess ∨
               ((T (infoInput key)).2).result ≠ kSMCSuccess) := by
    push_neg
    exact ⟨h1, h2⟩
  simp only [write_smc, if_neg hno, if_pos h3]
  simp

/-- C3 (witness): a write with caller-supplied size 4 against a
controller reporting size 2 fails with the bad-argument code after a
single call. -/
theorem write_smc_size_mismatch_bad_argument_witness :
    ({ zeroReturn with dataSize := 4 } : smc_return_t).dataSize ≠
      ((testT 2 0 0 0 (List.replicate 32 0) (infoInput keyF0Mn)).2).keyInfo.dataSize ∧
    (write_smc (testT 2 0 0 0 (List.replicate 32 0)) keyF0Mn
        { zeroReturn with dataSize := 4 }).kern = kIOReturnBadArgument ∧
    (write_smc (testT 2 0 0 0 (List.replicate 32 0)) keyF0Mn
        { zeroReturn with dataSize := 4 }).calls.length = 1 :=
  ⟨by decide,
   write_smc_size_mismatch_bad_argument (testT 2 0 0 0 (List.replicate 32 0))
     keyF0Mn { zeroReturn with dataSize := 4 } (by decide) (by decide) (by decide)⟩

/-- C4: `get_fan_rpm` and `set_fan_min_rpm` are independent of their
`fan_num` argument — under the same transport behaviour any two fan
indices produce identical results, because the keys read and written are
the literals "F0Ac" and "F0Mn". -/
theorem fan_functions_ignore_fan_num (T : Transport) (i j rpm : Nat) (auth : Bool) :
    get_fan_rpm T i = get_fan_rpm T j ∧
    set_fan_min_rpm T i rpm auth = set_fan_min_rpm T j rpm auth :=
  ⟨rfl, rfl⟩

/-- C5 (counterexample): a read whose metadata phase succeeds with
dataSize 2 and the sp78 tag but whose data phase fails at the protocol
level is a failed read (`kSMC` non-success), yet `get_tmp` passes its
checks (the returned code is success and the shape was stored during
the metadata phase) and converts the zeroed payload, returning 32 for
FAHRENHEIT instead of the claimed 0. -/
theorem get_tmp_claim_counterexample :
    (read_smc (testT 2 0x73703738 0 1 (List.replicate 32 0)) keyTC0D).ret.kSMC ≠
      kSMCSuccess ∧
    (read_smc (testT 2 0x73703738 0 1 (List.replicate 32 0)) keyTC0D).ret.dataSize = 2 ∧
    (read_smc (testT 2 0x73703738 0 1 (List.replicate 32 0)) keyTC0D).ret.dataType =
      DATA_TYPE_SP78 ∧
    get_tmp (testT 2 0x73703738 0 1 (List.replicate 32 0)) keyTC0D
      tmp_unit_t.FAHRENHEIT = 32 ∧
    get_tmp (testT 2 0x73703738 0 1 (List.replicate 32 0)) keyTC0D
      tmp_unit_t.FAHRENHEIT ≠ 0 := by
  have hk : (read_smc (testT 2 0x73703738 0 1 (List.replicate 32 0)) keyTC0D).kern =
      kIOReturnSuccess := by decide
  have hs : (read_smc (testT 2 0x73703738 0 1 (List.replicate 32 0)) keyTC0D).ret.dataSize
      = 2 := by decide
  have ht : (read_smc (testT 2 0x73703738 0 1 (List.replicate 32 0)) keyTC0D).ret.dataType
      = DATA_TYPE_SP78 := by decide
  have hd0 : (read_smc (testT 2 0x73703738 0 1
      (List.replicate 32 0)) keyTC0D).ret.data.getD 0 0 = 0 := by decide
  have hf : get_tmp (testT 2 0x73703738 0 1 (List.replicate 32 0)) keyTC0D
      tmp_unit_t.FAHRENHEIT = 32 := by
    simp only [get_tmp, hk, hs, ht, hd0]
    norm_num [to_fahrenheit]
  refine ⟨by decide, by decide, by decide, hf, ?_⟩
  rw [hf]
  norm_num

/-- C5 (amended): when a read succeeds (returned code success) with
dataSize 2, the sp78 tag and first payload byte 50, `get_tmp` returns
50 for CELSIUS, 122 for FAHRENHEIT and 323.15 for KELVIN; when the
returned code is not success or dataSize/dataType do not match,
`get_tmp` returns 0 for every unit; but a read that fails at the
data-phase protocol level (`kSMC` non-success with returned code
success) while the metadata phase reported dataSize 2 and the sp78 tag
passes the check and converts the zeroed payload: 0 for CELSIUS, 32
for FAHRENHEIT, 273.15 for KELVIN. -/
theorem get_tmp_amended (T : Transport) (key : List Nat) :
    (((read_smc T key).kern = kIOReturnSuccess ∧
      (read_smc T key).ret.dataSize = 2 ∧
      (read_smc T key).ret.dataType = DATA_TYPE_SP78 ∧
      (read_smc T key).ret.data.getD 0 0 = 50) →
      (get_tmp T key tmp_unit_t.CELSIUS = 50 ∧
       get_tmp T key tmp_unit_t.FAHRENHEIT = 122 ∧
       get_tmp T key tmp_unit_t.KELVIN = 323.15)) ∧
    (∀ u, ((read_smc T key).kern ≠ kIOReturnSuccess ∨
           (read_smc T key).ret.dataSize ≠ 2 ∨
           (read_smc T key).ret.dataType ≠ DATA_TYPE_SP78) →
          get_tmp T key u = 0) ∧
    (((read_smc T key).kern = kIOReturnSuccess ∧
      (read_smc T key).ret.kSMC ≠ kSMCSuccess ∧
      (read_smc T key).ret.dataSize = 2 ∧
      (read_smc T key).ret.dataType = DATA_TYPE_SP78) →
      (get_tmp T key tmp_unit_t.CELSIUS = 0 ∧
       get_tmp T key tmp_unit_t.FAHRENHEIT = 32 ∧
       get_tmp T key tmp_unit_t.KELVIN = 273.15)) := by
  refine ⟨?_, ?_, ?_⟩
  · rintro ⟨hk, hs, ht, hd⟩
    refine ⟨?_, ?_, ?_⟩ <;>
      · simp only [get_tmp, hk, hs, ht, hd]
        norm_num [to_fahrenheit, to_kelvin]
  · intro u h
    have hc : ¬((read_smc T key).kern = kIOReturnSuccess ∧
               (read_smc T key).ret.dataSize = 2 ∧
               (read_smc T key).ret.dataType = DATA_TYPE_SP78) := by tauto
    simp [get_tmp, hc]
  · rintro ⟨hk, hns, hs, ht⟩
    by_cases hp1 : (T (infoInput key)).1 ≠ kIOReturnSuccess ∨
                   ((T (infoInput key)).2).result ≠ kSMCSuccess
    · exfalso
      have hz : (read_smc T key).ret.dataSize = 0 := by
        simp [read_smc, if_pos hp1, zeroReturn]
      omega
    · by_cases hp2 : (T (readInput2 T key)).1 ≠ kIOReturnSuccess ∨
                     ((T (readInput2 T key)).2).result ≠ kSMCSuccess
      · have hdata : (read_smc T key).ret.data = List.replicate 32 0 := by
          simp [read_smc, if_neg hp1, if_pos hp2, zeroReturn]
        have hd0 : (read_smc T key).ret.data.getD 0 0 = 0 := by
          rw [hdata]
          decide
        refine ⟨?_, ?_, ?_⟩ <;>
          · simp only [get_tmp, hk, hs, ht, hd0]
            norm_num [to_fahrenheit, to_kelvin]
      · exfalso
        have h3 : (read_smc T key).ret.kSMC = ((T (readInput2 T key)).2).result := by
          simp [read_smc, if_neg hp1, if_neg hp2]
        push_neg at hp2
        exact hns (h3.trans hp2.2)

/-- C5 (witness): the temperature conversions evaluated at a concrete
transport reporting a 2-byte sp78 value whose first byte is 50. -/
theorem get_tmp_amended_witness :
    ((read_smc (testT 2 0x73703738 0 0 (50 :: List.replicate 31 0)) keyTC0D).kern =
        kIOReturnSuccess ∧
     (read_smc (testT 2 0x73703738 0 0 (50 :: List.replicate 31 0)) keyTC0D).ret.dataSize
        = 2 ∧
     (read_smc (testT 2 0x73703738 0 0 (50 :: List.replicate 31 0)) keyTC0D).ret.dataType
        = DATA_TYPE_SP78 ∧
     (read_smc (testT 2 0x73703738 0 0 (50 :: List.replicate 31 0)) keyTC0D).ret.data.getD
        0 0 = 50) ∧
    (get_tmp (testT 2 0x73703738 0 0 (50 :: List.replicate 31 0)) keyTC0D
        tmp_unit_t.CELSIUS = 50 ∧
     get_tmp (testT 2 0x73703738 0 0 (50 :: List.replicate 31 0)) keyTC0D
        tmp_unit_t.FAHRENHEIT = 122 ∧
     get_tmp (testT 2 0x73703738 0 0 (50 :: List.replicate 31 0)) keyTC0D
        tmp_unit_t.KELVIN = 323.15) :=
  ⟨by decide,
   (get_tmp_amended (testT 2 0x73703738 0 0 (50 :: List.replicate 31 0)) keyTC0D).1
     (by decide)⟩

/-- C6: `is_key_valid` answers true exactly when the key has length 4
and the attempted read's returned code and protocol status are both
success; a key of any other length signals the usage precondition
(the error message) and issues no transport call, while a well-formed
key the controller rejects yields false without the usage error. -/
theorem is_key_valid_spec (T : Transport) (key : List Nat) :
    (is_key_valid T key).ans =
      decide (key.length = SMC_KEY_SIZE ∧
              (read_smc T key).kern = kIOReturnSuccess ∧
              (read_smc T key).ret.kSMC = kSMCSuccess) ∧
    (is_key_valid T key).usageError = decide (key.length ≠ SMC_KEY_SIZE) ∧
    (is_key_valid T key).calls =
      (if key.length = SMC_KEY_SIZE then (read_smc T key).calls else []) := by
  by_cases hl : key.length = SMC_KEY_SIZE
  · simp [is_key_valid, hl]
  · simp [is_key_valid, hl]

/-- C7: big-endian packing of a 4-character printable-ASCII key with
`to_uint32_t` followed by `to_string` reproduces the original four
characters. -/
theorem key_codec_roundtrip (k0 k1 k2 k3 : Nat)
    (h0 : 32 ≤ k0 ∧ k0 ≤ 126) (h1 : 32 ≤ k1 ∧ k1 ≤ 126)
    (h2 : 32 ≤ k2 ∧ k2 ≤ 126) (h3 : 32 ≤ k3 ∧ k3 ≤ 126) :
    to_string (to_uint32_t [k0, k1, k2, k3]) = [k0, k1, k2, k3] := by
  simp only [to_uint32_t, to_string, SMC_KEY_SIZE, List.length_cons,
    List.length_nil, List.getD_cons_zero, List.getD_cons_succ]
  norm_num
  simp only [and_255_eq_mod, Nat.shiftLeft_eq, Nat.shiftRight_eq_div_pow,
    List.cons.injEq, and_true]
  norm_num
  refine ⟨?_, ?_, ?_, ?_⟩ <;> omega

/-- C7 (witness): the key codec round trip evaluated at the characters
of "F0Ac". -/
theorem key_codec_roundtrip_witness :
    to_string (to_uint32_t [70, 48, 65, 99]) = [70, 48, 65, 99] :=
  key_codec_roundtrip 70 48 65 99 (by decide) (by decide) (by decide) (by decide)

/-- C8: the XOR term in `to_fpe2` is a no-op — the encoder agrees with
the simplified encoder that stores `val << 2` directly, on every value
and every data array, and the byte stored at index 1 is `val << 2`
truncated to 8 bits. -/
theorem to_fpe2_xor_noop (val : Nat) (data : List Nat) :
    to_fpe2 val data = to_fpe2_simplified val data ∧
    (to_fpe2 val (List.replicate 32 0)).getD 1 0 = (val <<< 2) % 2 ^ 32 % 256 := by
  constructor
  · simp only [to_fpe2, to_fpe2_simplified, xor_shiftLeft8_mod256]
  · have hrep : (List.replicate 32 0 : List Nat) = 0 :: 0 :: List.replicate 30 0 := rfl
    simp only [to_fpe2, hrep, List.set_cons_zero, List.set_cons_succ,
      List.getD_cons_zero, List.getD_cons_succ]
    exact xor_shiftLeft8_mod256 _ _

/-- C9: when the read of "F0Ac" succeeds (returned code success) with
dataSize 2, the fpe2 tag and payload bytes 0x10, 0x00, `get_fan_rpm`
returns 1024; on any channel or protocol failure in either phase, or a
size or type mismatch, it returns 0. -/
theorem get_fan_rpm_spec (T : Transport) (fan_num : Nat) :
    (((read_smc T keyF0Ac).kern = kIOReturnSuccess ∧
      (read_smc T keyF0Ac).ret.dataSize = 2 ∧
      (read_smc T keyF0Ac).ret.dataType = DATA_TYPE_FPE2 ∧
      (read_smc T keyF0Ac).ret.data.getD 0 0 = 16 ∧
      (read_smc T keyF0Ac).ret.data.getD 1 0 = 0) →
      get_fan_rpm T fan_num = 1024) ∧
    (((T (infoInput keyF0Ac)).1 ≠ kIOReturnSuccess ∨
      ((T (infoInput keyF0Ac)).2).result ≠ kSMCSuccess ∨
      (T (readInput2 T keyF0Ac)).1 ≠ kIOReturnSuccess ∨
      ((T (readInput2 T keyF0Ac)).2).result ≠ kSMCSuccess ∨
      (read_smc T keyF0Ac).ret.dataSize ≠ 2 ∨
      (read_smc T keyF0Ac).ret.dataType ≠ DATA_TYPE_FPE2) →
      get_fan_rpm T fan_num = 0) := by
  constructor
  · rintro ⟨hk, hs, ht, h0, h1⟩
    simp only [get_fan_rpm, hk, hs, ht, from_fpe2, h0, h1]
    decide
  · intro h
    by_cases hC : (read_smc T keyF0Ac).kern = kIOReturnSuccess ∧
                  (read_smc T keyF0Ac).ret.dataSize = 2 ∧
                  (read_smc T keyF0Ac).ret.dataType = DATA_TYPE_FPE2
    · by_cases hp1 : (T (infoInput keyF0Ac)).1 ≠ kIOReturnSuccess ∨
                     ((T (infoInput keyF0Ac)).2).result ≠ kSMCSuccess
      · exfalso
        have hz : (read_smc T keyF0Ac).ret.dataSize = 0 := by
          simp [read_smc, if_pos hp1, zeroReturn]
        omega
      · by_cases hp2 : (T (readInput2 T keyF0Ac)).1 ≠ kIOReturnSuccess ∨
                       ((T (readInput2 T keyF0Ac)).2).result ≠ kSMCSuccess
        · have hdata : (read_smc T keyF0Ac).ret.data = List.replicate 32 0 := by
            simp [read_smc, if_neg hp1, if_pos hp2, zeroReturn]
          simp [get_fan_rpm, hC, hdata, from_fpe2]
        · push_neg at hp1 hp2
          rcases h with h | h | h | h | h | h
          · exact absurd hp1.1 h
          · exact absurd hp1.2 h
          · exact absurd hp2.1 h
          · exact absurd hp2.2 h
          · exact absurd hC.2.1 h
          · exact absurd hC.2.2 h
    · simp [get_fan_rpm, hC]

/-- C9 (witness): the fan-speed decoding evaluated at a concrete
transport reporting a 2-byte fpe2 value with payload bytes 0x10, 0x00. -/
theorem get_fan_rpm_spec_witness :
    ((read_smc (testT 2 0x66706532 0 0 (16 :: 0 :: List.replicate 30 0)) keyF0Ac).kern =
        kIOReturnSuccess ∧
     (read_smc (testT 2 0x66706532 0 0 (16 :: 0 :: List.replicate 30 0)) keyF0Ac).ret.dataSize
        = 2 ∧
     (read_smc (testT 2 0x66706532 0 0 (16 :: 0 :: List.replicate 30 0)) keyF0Ac).ret.dataType
        = DATA_TYPE_FPE2 ∧
     (read_smc (testT 2 0x66706532 0 0 (16 :: 0 :: List.replicate 30 0)) keyF0Ac).ret.data.getD
        0 0 = 16 ∧
     (read_smc (testT 2 0x66706532 0 0 (16 :: 0 :: List.replicate 30 0)) keyF0Ac).ret.data.getD
        1 0 = 0) ∧
    get_fan_rpm (testT 2 0x66706532 0 0 (16 :: 0 :: List.replicate 30 0)) 3 = 1024 :=
  ⟨by decide,
   (get_fan_rpm_spec (testT 2 0x66706532 0 0 (16 :: 0 :: List.replicate 30 0)) 3).1
     (by decide)⟩

/-- C10 (counterexample): a read whose metadata phase succeeds with
size 2 and the sp78 tag but whose data phase fails at the protocol
level is a failed transaction (`kSMC` non-success), yet the returned
record carries dataSize 2 and a non-zero dataType — `read_smc` does not
return an all-zero record on every failure, only on metadata-phase
failure. -/
theorem read_smc_zeroing_counterexample :
    (read_smc (testT 2 0x73703738 0 1 (List.replicate 32 0)) keyTC0D).ret.kSMC ≠
      kSMCSuccess ∧
    (read_smc (testT 2 0x73703738 0 1 (List.replicate 32 0)) keyTC0D).ret.dataSize = 2 ∧
    (read_smc (testT 2 0x73703738 0 1 (List.replicate 32 0)) keyTC0D).ret.dataType =
      DATA_TYPE_SP78 := by
  decide

/-- C10 (amended): `read_smc` zeroes its output record first, so on a
metadata-phase failure the returned record has dataSize 0, an all-zero
dataType and all-zero payload, only `kSMC` carrying the response's
protocol status; `get_tmp` then rejects such reads through its dataSize
check and returns 0 for every unit. -/
theorem read_smc_metadata_failure_zeroed (T : Transport) (key : List Nat)
    (h : (T (infoInput key)).1 ≠ kIOReturnSuccess ∨
         ((T (infoInput key)).2).result ≠ kSMCSuccess) :
    (read_smc T key).ret.dataSize = 0 ∧
    (read_smc T key).ret.dataType = List.replicate 4 0 ∧
    (read_smc T key).ret.data = List.replicate 32 0 ∧
    (read_smc T key).ret.kSMC = ((T (infoInput key)).2).result ∧
    (∀ u, get_tmp T key u = 0) := by
  refine ⟨?_, ?_, ?_, ?_, ?_⟩ <;>
    simp [read_smc, if_pos h, zeroReturn, get_tmp]

/-- C10 (witness): the zeroed failure record evaluated at a transport
whose channel always fails. -/
theorem read_smc_metadata_failure_zeroed_witness :
    ((failT (infoInput keyTC0D)).1 ≠ kIOReturnSuccess ∨
     ((failT (infoInput keyTC0D)).2).result ≠ kSMCSuccess) ∧
    (read_smc failT keyTC0D).ret.dataSize = 0 ∧
    (read_smc failT keyTC0D).ret.dataType = List.replicate 4 0 ∧
    (read_smc failT keyTC0D).ret.data = List.replicate 32 0 ∧
    (read_smc failT keyTC0D).ret.kSMC = ((failT (infoInput keyTC0D)).2).result ∧
    get_tmp failT keyTC0D tmp_unit_t.CELSIUS = 0 :=
  ⟨by decide,
   (read_smc_metadata_failure_zeroed failT keyTC0D (by decide)).1,
   (read_smc_metadata_failure_zeroed failT keyTC0D (by decide)).2.1,
   (read_smc_metadata_failure_zeroed failT keyTC0D (by decide)).2.2.1,
   (read_smc_metadata_failure_zeroed failT keyTC0D (by decide)).2.2.2.1,
   (read_smc_metadata_failure_zeroed failT keyTC0D (by decide)).2.2.2.2
     tmp_unit_t.CELSIUS⟩
